import Mathlib

/-!
Verification development for the resume analysis pipeline implemented in
`backend/resume_parser.py` (class `ResumeParser`), together with the flat
storage mapping (`format_for_database`) and the read-back performed by the
details endpoint in `backend/main.py`.

Shallow embedding conventions:
* Python strings are Lean `String` (worked on through `String.data`);
* Python objects decoded from JSON (and the dicts built by the code) are the
  `Json` inductive below — dicts keep key insertion order;
* Python exceptions are the `PyExc` inductive, carrying `str(e)`;
* `json.loads` is modelled by an executable recursive-descent parser
  (`json_loads`) producing either a value or a `JsonErr` whose rendered
  message follows the `"<kind>: line L column C (char P)"` shape of
  `json.JSONDecodeError`;
* the PDF byte stream consumed by `pypdf.PdfReader` is modelled by `PdfDoc`:
  either a malformed stream or a list of per-page extracted texts.
-/

/-- Python whitespace class used by `str.strip()` and `str.split()`. -/
def pySpace (c : Char) : Bool :=
  c = ' ' || c = '\t' || c = '\n' || c = '\r' || c = '\x0b' || c = '\x0c'

/-- Drop the characters satisfying `p` from both ends of a list: the common
    core of Python `str.strip()` and `str.strip(chars)`. -/
def stripBoth (p : Char → Bool) (l : List Char) : List Char :=
  ((l.dropWhile p).reverse.dropWhile p).reverse

/-- Python `str.strip()` with no argument: whitespace stripped from both ends. -/
def pyStrip (s : String) : String := ⟨stripBoth pySpace s.data⟩

/-- The 26 ASCII letter case pairs; the model of Python case mapping is
    restricted to ASCII, which covers every string the code manipulates. -/
def asciiCasePairs : List (Char × Char) :=
  [('A', 'a'), ('B', 'b'), ('C', 'c'), ('D', 'd'), ('E', 'e'), ('F', 'f'),
   ('G', 'g'), ('H', 'h'), ('I', 'i'), ('J', 'j'), ('K', 'k'), ('L', 'l'),
   ('M', 'm'), ('N', 'n'), ('O', 'o'), ('P', 'p'), ('Q', 'q'), ('R', 'r'),
   ('S', 's'), ('T', 't'), ('U', 'u'), ('V', 'v'), ('W', 'w'), ('X', 'x'),
   ('Y', 'y'), ('Z', 'z')]

def pyToLower (c : Char) : Char :=
  match asciiCasePairs.find? (fun p => p.1 == c) with
  | some p => p.2
  | none => c

def pyToUpper (c : Char) : Char :=
  match asciiCasePairs.find? (fun p => p.2 == c) with
  | some p => p.1
  | none => c

/-- Python `str.lower()`. -/
def pyLower (s : String) : String := ⟨s.data.map pyToLower⟩

/-- Python `str.capitalize()`: first character upper-cased, rest lower-cased. -/
def pyCapitalize (s : String) : String :=
  match s.data with
  | [] => ⟨[]⟩
  | c :: rest => ⟨pyToUpper c :: rest.map pyToLower⟩

def pySplitAux : List Char → List Char → List (List Char)
  | [], cur => if cur.isEmpty then [] else [cur.reverse]
  | c :: rest, cur =>
    if pySpace c then
      if cur.isEmpty then pySplitAux rest [] else cur.reverse :: pySplitAux rest []
    else pySplitAux rest (c :: cur)

/-- Python `str.split()` with no separator: split on whitespace runs,
    producing no empty words. -/
def pySplitWs (l : List Char) : List (List Char) := pySplitAux l []

def listStartsWith : List Char → List Char → Bool
  | [], _ => true
  | _ :: _, [] => false
  | p :: ps, c :: cs => p == c && listStartsWith ps cs

/-- Python substring test `needle in hay`. -/
def containsSub : List Char → List Char → Bool
  | [], needle => needle.isEmpty
  | c :: rest, needle => listStartsWith needle (c :: rest) || containsSub rest needle

/-- Python slice `l[a:-b]` for non-negative `a`, `b`. -/
def pySliceTrim (a b : Nat) (l : List Char) : List Char :=
  (l.drop a).take (l.length - b - a)

/-- JSON values: the model of Python objects decoded by `json.loads` and of
    the dicts the code builds. Numbers are exact rationals. -/
inductive Json where
  | null : Json
  | bool : Bool → Json
  | num : Rat → Json
  | str : String → Json
  | arr : List Json → Json
  | obj : List (String × Json) → Json

/-- Python `d.get(k)` on a decoded dict, `none` when the key is absent. -/
def jsonLookup (j : Json) (k : String) : Option Json :=
  match j with
  | .obj kvs => (kvs.find? (fun p => p.1 == k)).map (fun p => p.2)
  | _ => none

/-- Chained lookups along a key path. -/
def jsonAt : Json → List String → Option Json
  | j, [] => some j
  | j, k :: ks =>
    match jsonLookup j k with
    | some v => jsonAt v ks
    | none => none

/-- Python truthiness of a decoded value. -/
def pyFalsy : Json → Bool
  | .null => true
  | .bool b => !b
  | .num q => q == 0
  | .str s => s.isEmpty
  | .arr xs => xs.isEmpty
  | .obj kvs => kvs.isEmpty

/-- Python `x or d`. -/
def pyOr (x d : Json) : Json := if pyFalsy x then d else x

/-- Python `d[k] = v` on a dict: replace in place when present, append when
    absent. -/
def setKeyKVs : List (String × Json) → String → Json → List (String × Json)
  | [], k, v => [(k, v)]
  | (k', v') :: rest, k, v =>
    if k' == k then (k', v) :: rest else (k', v') :: setKeyKVs rest k v

/-- Python exceptions seen by the pipeline; the constructor records the Python
    exception class, the field holds `str(e)`. -/
inductive PyExc where
  | exc : String → PyExc
  | valueError : String → PyExc
  | jsonDecodeError : String → PyExc
  | typeError : String → PyExc
  | attributeError : String → PyExc
deriving DecidableEq

def PyExc.message : PyExc → String
  | .exc m => m
  | .valueError m => m
  | .jsonDecodeError m => m
  | .typeError m => m
  | .attributeError m => m

/-- Index of the Python exception class: equal indices mean a caller catching
    by type cannot tell the two exceptions apart. -/
def PyExc.classIdx : PyExc → Nat
  | .exc _ => 0
  | .valueError _ => 1
  | .jsonDecodeError _ => 2
  | .typeError _ => 3
  | .attributeError _ => 4

/-- JSON whitespace (RFC 8259), as skipped by Python `json.loads`. -/
def jsonWs (c : Char) : Bool := c = ' ' || c = '\t' || c = '\n' || c = '\r'

/-- Parser failures: the error kind and the remaining input at the failure. -/
abbrev PFail := String × List Char

def escapeChar (c : Char) : Option Char :=
  if c = '"' then some '"'
  else if c = '\\' then some '\\'
  else if c = '/' then some '/'
  else if c = 'b' then some '\x08'
  else if c = 'f' then some '\x0c'
  else if c = 'n' then some '\n'
  else if c = 'r' then some '\r'
  else if c = 't' then some '\t'
  else none

def parseStrBody : List Char → List Char → Except PFail (String × List Char)
  | [], _ => .error ("Unterminated string", [])
  | '"' :: rest, acc => .ok (⟨acc.reverse⟩, rest)
  | '\\' :: rest, acc =>
    match rest with
    | [] => .error ("Unterminated string", [])
    | e :: rest' =>
      match escapeChar e with
      | some c => parseStrBody rest' (c :: acc)
      | none => .error ("Invalid escape", e :: rest')
  | c :: rest, acc => parseStrBody rest (c :: acc)

def parseDigits (l : List Char) : List Char × List Char :=
  (l.takeWhile Char.isDigit, l.dropWhile Char.isDigit)

def digitsVal (ds : List Char) : Nat :=
  ds.foldl (fun acc c => acc * 10 + (c.toNat - 48)) 0

def parseNum (l : List Char) : Except PFail (Json × List Char) :=
  let signed := match l with
    | '-' :: rest => (true, rest)
    | _ => (false, l)
  let intPart := parseDigits signed.2
  if intPart.1.isEmpty then .error ("Expecting value", l)
  else
    match intPart.2 with
    | '.' :: l3 =>
      let fracPart := parseDigits l3
      if fracPart.1.isEmpty then .error ("Expecting value", l)
      else
        let n : Int := digitsVal intPart.1 * 10 ^ fracPart.1.length + digitsVal fracPart.1
        .ok (.num (mkRat (if signed.1 then -n else n) (10 ^ fracPart.1.length)), fracPart.2)
    | rest =>
      let n : Int := digitsVal intPart.1
      .ok (.num (mkRat (if signed.1 then -n else n) 1), rest)

mutual

def parseVal : Nat → List Char → Except PFail (Json × List Char)
  | 0, l => .error ("Expecting value", l)
  | Nat.succ _, [] => .error ("Expecting value", [])
  | Nat.succ fuel, c :: rest =>
    if c = '{' then
      let l1 := rest.dropWhile jsonWs
      match l1 with
      | '}' :: l2 => .ok (.obj [], l2)
      | _ => parseMembers fuel l1 []
    else if c = '[' then
      let l1 := rest.dropWhile jsonWs
      match l1 with
      | ']' :: l2 => .ok (.arr [], l2)
      | _ => parseItems fuel l1 []
    else if c = '"' then
      match parseStrBody rest [] with
      | .ok (s, l1) => .ok (.str s, l1)
      | .error e => .error e
    else if c = 't' then
      if listStartsWith ['r', 'u', 'e'] rest then .ok (.bool true, rest.drop 3)
      else .error ("Expecting value", c :: rest)
    else if c = 'f' then
      if listStartsWith ['a', 'l', 's', 'e'] rest then .ok (.bool false, rest.drop 4)
      else .error ("Expecting value", c :: rest)
    else if c = 'n' then
      if listStartsWith ['u', 'l', 'l'] rest then .ok (.null, rest.drop 3)
      else .error ("Expecting value", c :: rest)
    else if c = '-' || c.isDigit then
      parseNum (c :: rest)
    else .error ("Expecting value", c :: rest)

def parseMembers : Nat → List Char → List (String × Json) →
    Except PFail (Json × List Char)
  | 0, l, _ => .error ("Expecting value", l)
  | Nat.succ fuel, l, acc =>
    match l with
    | '"' :: rest =>
      match parseStrBody rest [] with
      | .error e => .error e
      | .ok (k, l1) =>
        match l1.dropWhile jsonWs with
        | ':' :: l2 =>
          match parseVal fuel (l2.dropWhile jsonWs) with
          | .error e => .error e
          | .ok (v, l3) =>
            match l3.dropWhile jsonWs with
            | ',' :: l4 => parseMembers fuel (l4.dropWhile jsonWs) (acc ++ [(k, v)])
            | '}' :: l4 => .ok (.obj (acc ++ [(k, v)]), l4)
            | l4 => .error ("Expecting comma delimiter", l4)
        | l2 => .error ("Expecting colon delimiter", l2)
    | _ => .error ("Expecting property name enclosed in double quotes", l)

def parseItems : Nat → List Char → List Json → Except PFail (Json × List Char)
  | 0, l, _ => .error ("Expecting value", l)
  | Nat.succ fuel, l, acc =>
    match parseVal fuel l with
    | .error e => .error e
    | .ok (v, l1) =>
      match l1.dropWhile jsonWs with
      | ',' :: l2 => parseItems fuel (l2.dropWhile jsonWs) (acc ++ [v])
      | ']' :: l2 => .ok (.arr (acc ++ [v]), l2)
      | l2 => .error ("Expecting comma delimiter", l2)

end

/-- A `json.JSONDecodeError`: kind of failure plus position data. -/
structure JsonErr where
  kind : String
  line : Nat
  col : Nat
  pos : Nat
deriving DecidableEq

/-- `str(e)` for a `json.JSONDecodeError`. -/
def jsonErrStr (e : JsonErr) : String :=
  e.kind ++ ": line " ++ toString e.line ++ " column " ++ toString e.col ++
    " (char " ++ toString e.pos ++ ")"

def mkJsonErr (src : List Char) (kind : String) (restAtFailure : List Char) : JsonErr :=
  let pos := src.length - restAtFailure.length
  let pre := src.take pos
  let line := 1 + (pre.filter (fun c => c = '\n')).length
  let col :=
    match pre.reverse.findIdx? (fun c => c = '\n') with
    | some k => k + 1
    | none => pos + 1
  ⟨kind, line, col, pos⟩

/-- Model of Python `json.loads`: strict decoding of the full string, with
    surrounding JSON whitespace allowed and trailing garbage rejected. -/
def json_loads (s : String) : Except JsonErr Json :=
  match parseVal (2 * s.data.length + 2) (s.data.dropWhile jsonWs) with
  | .error (kind, rest) => .error (mkJsonErr s.data kind rest)
  | .ok (v, rest) =>
    if (rest.dropWhile jsonWs).isEmpty then .ok v
    else .error (mkJsonErr s.data "Extra data" (rest.dropWhile jsonWs))

/-! ## The embedded repository functions (`backend/resume_parser.py`) -/

/-- The fixed keyword list of the heuristic fallback (line 131). -/
def skill_keywords : List String :=
  ["python", "javascript", "java", "react", "node", "sql", "git", "aws",
   "docker", "kubernetes"]

/-- Line 120: `words = resume_text.lower().split()`. -/
def mockWords (resume_text : String) : List (List Char) :=
  pySplitWs (pyLower resume_text).data

/-- Membership in the strip set of line 126: `word.strip('.,()[]')`. -/
def emailStripSet (c : Char) : Bool :=
  c = '.' || c = ',' || c = '(' || c = ')' || c = '[' || c = ']'

/-- The loop of lines 123-127: the first whitespace-delimited token of the
    lower-cased text containing both symbols, `none` otherwise. -/
def mockEmailTok (resume_text : String) : Option (List Char) :=
  (mockWords resume_text).find? (fun w => w.contains '@' && w.contains '.')

/-- The email stored by the fallback (line 139): Python
    `email or 'sample@email.com'` where `email` is the stripped first match
    (so a found-but-falsy value also yields the placeholder). -/
def mockEmailVal (resume_text : String) : String :=
  match mockEmailTok resume_text with
  | some w =>
    let e := stripBoth emailStripSet w
    if e.isEmpty then "sample@email.com" else ⟨e⟩
  | none => "sample@email.com"

/-- The loop of lines 130-134: keywords occurring as substrings of the
    lower-cased text, capitalized, accumulated in keyword-list order. -/
def mockTechSkills (resume_text : String) : List String :=
  skill_keywords.foldl
    (fun acc skill =>
      if containsSub (pyLower resume_text).data skill.data then
        acc ++ [pyCapitalize skill]
      else acc)
    []

/-- Python `xs or ys` for lists of strings. -/
def pyListOr (xs ys : List String) : List String := if xs.isEmpty then ys else xs

def strArr (l : List String) : Json := .arr (l.map .str)

/-- `get_mock_analysis` (lines 117-190): the heuristic fallback record,
    translated dict-literal for dict-literal. -/
def get_mock_analysis (resume_text : String) : Json :=
  let tech_skills := mockTechSkills resume_text
  .obj
    [("personal_info", .obj
        [("name", .str "Sample Name (Mock)"),
         ("email", .str (mockEmailVal resume_text)),
         ("phone", .str "+1-234-567-8900"),
         ("address", .str "Sample Address"),
         ("linkedin", .null),
         ("github", .null),
         ("website", .null)]),
     ("skills", .obj
        [("core_skills", strArr (pyListOr tech_skills ["Python", "JavaScript", "SQL"])),
         ("soft_skills", strArr ["Communication", "Problem Solving", "Team Work"]),
         ("certifications", strArr []),
         ("languages", .arr
            [.obj [("language", .str "English"), ("proficiency", .str "Native")]])]),
     ("work_experience", .arr
        [.obj
           [("company", .str "Sample Company"),
            ("position", .str "Software Developer"),
            ("duration", .str "2022 - Present"),
            ("location", .str "Remote"),
            ("description", strArr ["Developed applications", "Collaborated with team"]),
            ("technologies", strArr (pyListOr (tech_skills.take 3) ["Python", "React"]))]]),
     ("education", .arr
        [.obj
           [("institution", .str "Sample University"),
            ("degree", .str "Bachelor of Science"),
            ("field_of_study", .str "Computer Science"),
            ("graduation_date", .str "2022"),
            ("gpa", .null),
            ("location", .str "Sample City")]]),
     ("projects", .arr
        [.obj
           [("name", .str "Sample Project"),
            ("description", .str "A sample project for demonstration"),
            ("technologies", strArr (pyListOr (tech_skills.take 2) ["Python"])),
            ("duration", .str "3 months"),
            ("url", .null)]]),
     ("achievements", strArr ["Mock Achievement 1", "Mock Achievement 2"]),
     ("analysis", .obj
        [("resume_rating", .num (mkRat 15 2)),
         ("strengths", .str "This is a mock analysis. The resume shows technical skills and experience."),
         ("improvement_areas", .str "Mock suggestion: Add more quantifiable achievements and specific project outcomes."),
         ("upskill_suggestions", .str "Mock suggestion: Consider learning cloud technologies like AWS or Azure."),
         ("missing_sections", strArr ["Professional Summary", "Certifications"])]),
     ("raw_text", .str resume_text)]

/-- The PDF byte stream as seen through `pypdf.PdfReader`: either parsing the
    stream (or decoding a page) fails with some message, or it yields the
    `page.extract_text()` result for each page. -/
inductive PdfDoc where
  | malformed : String → PdfDoc
  | valid : List String → PdfDoc

/-- The page loop of lines 32-34: `text += page.extract_text() + "\n"`. -/
def pdfConcat (pages : List String) : String :=
  pages.foldl (fun text page => text ++ page ++ "\n") ""

/-- `extract_text_from_pdf` (lines 28-37): concatenated page texts with a
    newline after each page, stripped; failures re-raised as a generic
    `Exception` with the fixed message. -/
def extract_text_from_pdf (pdf_file : PdfDoc) : Except PyExc String :=
  match pdf_file with
  | .malformed e => .error (.exc ("Error extracting text from PDF: " ++ e))
  | .valid pages => .ok (pyStrip (pdfConcat pages))

/-- `create_analysis_prompt` (lines 39-115): the fixed instruction template
    with the resume text interpolated. The JSON-shape block of the template is
    reproduced in condensed form (braces written as character escapes); no
    claim depends on the template text, only on the prompt being a pure
    function of the resume text. -/
def create_analysis_prompt (resume_text : String) : String :=
  "\n        Analyze the following resume and extract comprehensive information in JSON format. Be thorough and accurate.\n\n        Resume Text:\n        " ++
  resume_text ++
  "\n\n        Please extract the following information and return it as a valid JSON object:\n        \x7bpersonal_info: \x7bname, email, phone, address, linkedin, github, website\x7d, skills: \x7bcore_skills, soft_skills, certifications, languages\x7d, work_experience, education, projects, achievements, analysis: \x7bresume_rating, strengths, improvement_areas, upskill_suggestions, missing_sections\x7d\x7d\n        Instructions:\n        1. Extract all available information accurately\n        2. For missing information, use null or empty arrays appropriately\n        3. Rate the resume out of 10 based on completeness, clarity, and professional presentation\n        4. Provide specific, actionable improvement suggestions\n        5. Suggest relevant upskilling opportunities based on the persons background\n        6. Identify missing resume sections like summary, certifications, etc.\n        7. Return only valid JSON without any additional text or formatting\n        "

/-- The fence-stripping repair of lines 216-221: strip the response, then cut
    the fence markers by slicing (`content[7:-3]` after a ```` ```json ````
    fence, `content[3:-3]` after a bare ```` ``` ```` fence). The result is
    what the second `json.loads` receives — note it is the *stripped* response
    when no fence is present. -/
def fenceRepair (response : String) : String :=
  if listStartsWith "```json".data (pyStrip response).data then
    ⟨pySliceTrim 7 3 (pyStrip response).data⟩
  else if listStartsWith "```".data (pyStrip response).data then
    ⟨pySliceTrim 3 3 (pyStrip response).data⟩
  else pyStrip response

/-- Lines 213-223: strict decode of the raw response, then exactly one
    fence-repair retry; the second failure propagates. -/
def decodeWithRecovery (response : String) : Except JsonErr Json :=
  match json_loads response with
  | .ok v => .ok v
  | .error _ => json_loads (fenceRepair response)

/-- The body of `analyze_resume` (lines 192-228) before the enclosing
    `try/except` re-wrap. `use_mock` is the strategy flag fixed in
    `__init__`; `llm` maps the rendered prompt to the raw textual response of
    the reasoning service (the external call, modelled as a function). -/
def analyzeResumeBody (use_mock : Bool) (llm : String → String)
    (pdf_file : PdfDoc) : Except PyExc Json :=
  match extract_text_from_pdf pdf_file with
  | .error e => .error e
  | .ok resume_text =>
    if (pyStrip resume_text).isEmpty then
      .error (.valueError "No text could be extracted from the PDF")
    else if use_mock then
      .ok (get_mock_analysis resume_text)
    else
      let prompt := create_analysis_prompt resume_text
      let response := llm prompt
      match decodeWithRecovery response with
      | .error e => .error (.jsonDecodeError (jsonErrStr e))
      | .ok analysis_data =>
        match analysis_data with
        | .obj kvs => .ok (.obj (setKeyKVs kvs "raw_text" (.str resume_text)))
        | _ => .error (.typeError "object does not support item assignment")

/-- `analyze_resume` (lines 192-231): the body above wrapped by
    `except Exception as e: raise Exception(f"Error analyzing resume: ...")`,
    which converts every failure into a generic `Exception` whose message
    wraps `str(e)`. -/
def analyze_resume (use_mock : Bool) (llm : String → String)
    (pdf_file : PdfDoc) : Except PyExc Json :=
  match analyzeResumeBody use_mock llm pdf_file with
  | .ok v => .ok v
  | .error e => .error (.exc ("Error analyzing resume: " ++ e.message))

/-- Python `d.get(k)` on a value that must be a dict (`AttributeError`
    otherwise); `None` when the key is absent. -/
def dictGet (j : Json) (k : String) : Except PyExc Json :=
  match j with
  | .obj kvs =>
    .ok (match (kvs.find? (fun p => p.1 == k)).map (fun p => p.2) with
         | some v => v
         | none => .null)
  | _ => .error (.attributeError "object has no attribute get")

/-- Python `d.get(k, default)`. -/
def dictGetD (j : Json) (k : String) (d : Json) : Except PyExc Json :=
  match j with
  | .obj kvs =>
    .ok (match (kvs.find? (fun p => p.1 == k)).map (fun p => p.2) with
         | some v => v
         | none => d)
  | _ => .error (.attributeError "object has no attribute get")

/-- `format_for_database` (lines 233-263): the flat storage mapping, with the
    source dict-literal key order preserved. -/
def format_for_database (analysis_data : Json) (filename : String) :
    Except PyExc Json := do
  let personal_info ← dictGetD analysis_data "personal_info" (.obj [])
  let skills ← dictGetD analysis_data "skills" (.obj [])
  let analysis ← dictGetD analysis_data "analysis" (.obj [])
  let name ← dictGet personal_info "name"
  let email ← dictGet personal_info "email"
  let phone ← dictGet personal_info "phone"
  let address ← dictGet personal_info "address"
  let linkedin ← dictGet personal_info "linkedin"
  let github ← dictGet personal_info "github"
  let website ← dictGet personal_info "website"
  let core_skills ← dictGetD skills "core_skills" (.arr [])
  let soft_skills ← dictGetD skills "soft_skills" (.arr [])
  let certifications ← dictGetD skills "certifications" (.arr [])
  let languages ← dictGetD skills "languages" (.arr [])
  let work_experience ← dictGetD analysis_data "work_experience" (.arr [])
  let education ← dictGetD analysis_data "education" (.arr [])
  let projects ← dictGetD analysis_data "projects" (.arr [])
  let achievements ← dictGetD analysis_data "achievements" (.arr [])
  let resume_rating ← dictGetD analysis "resume_rating" (.num 0)
  let improvement_areas ← dictGetD analysis "improvement_areas" (.str "")
  let upskill_suggestions ← dictGetD analysis "upskill_suggestions" (.str "")
  let strengths ← dictGetD analysis "strengths" (.str "")
  let missing_sections ← dictGetD analysis "missing_sections" (.arr [])
  let raw_text ← dictGetD analysis_data "raw_text" (.str "")
  pure (.obj
    [("filename", .str filename),
     ("name", name),
     ("email", email),
     ("phone", phone),
     ("address", address),
     ("linkedin", linkedin),
     ("github", github),
     ("website", website),
     ("core_skills", core_skills),
     ("soft_skills", soft_skills),
     ("certifications", certifications),
     ("languages", languages),
     ("work_experience", work_experience),
     ("education", education),
     ("projects", projects),
     ("achievements", achievements),
     ("resume_rating", resume_rating),
     ("improvement_areas", improvement_areas),
     ("upskill_suggestions", upskill_suggestions),
     ("strengths", strengths),
     ("missing_sections", missing_sections),
     ("raw_text", raw_text),
     ("structured_data", analysis_data)])

/-- A flat-record column read, `.null` (SQL NULL) when the column is absent. -/
def colGet (flat : Json) (k : String) : Json :=
  match jsonLookup flat k with
  | some v => v
  | none => .null

/-- Read-back of a persisted flat record: the field mapping performed by the
    details endpoint (`backend/main.py`, `get_resume_details`), which rebuilds
    the profile from the flat columns with `or`-defaults on the collection,
    text and rating fields; extended with the stored `raw_text` column so that
    every StructuredProfile field of §3 is recovered. -/
def readBackProfile (flat : Json) : Json :=
  .obj
    [("personal_info", .obj
        [("name", colGet flat "name"),
         ("email", colGet flat "email"),
         ("phone", colGet flat "phone"),
         ("address", colGet flat "address"),
         ("linkedin", colGet flat "linkedin"),
         ("github", colGet flat "github"),
         ("website", colGet flat "website")]),
     ("skills", .obj
        [("core_skills", pyOr (colGet flat "core_skills") (.arr [])),
         ("soft_skills", pyOr (colGet flat "soft_skills") (.arr [])),
         ("certifications", pyOr (colGet flat "certifications") (.arr [])),
         ("languages", pyOr (colGet flat "languages") (.arr []))]),
     ("work_experience", pyOr (colGet flat "work_experience") (.arr [])),
     ("education", pyOr (colGet flat "education") (.arr [])),
     ("projects", pyOr (colGet flat "projects") (.arr [])),
     ("achievements", pyOr (colGet flat "achievements") (.arr [])),
     ("analysis", .obj
        [("resume_rating", pyOr (colGet flat "resume_rating") (.num 0)),
         ("strengths", pyOr (colGet flat "strengths") (.str "")),
         ("improvement_areas", pyOr (colGet flat "improvement_areas") (.str "")),
         ("upskill_suggestions", pyOr (colGet flat "upskill_suggestions") (.str "")),
         ("missing_sections", pyOr (colGet flat "missing_sections") (.arr []))]),
     ("raw_text", colGet flat "raw_text")]

/-- A complete StructuredProfile-shaped object (§3 of the spec: every field
    present, list fields actual lists, analysis text fields strings, the
    rating a number; personal fields and raw_text arbitrary values). -/
def mkProfile (name email phone address linkedin github website : Json)
    (core_skills soft_skills certifications languages : List Json)
    (work_experience education projects achievements : List Json)
    (rating : Rat) (strengths improvement_areas upskill_suggestions : String)
    (missing_sections : List Json) (raw_text : Json) : Json :=
  .obj
    [("personal_info", .obj
        [("name", name), ("email", email), ("phone", phone),
         ("address", address), ("linkedin", linkedin), ("github", github),
         ("website", website)]),
     ("skills", .obj
        [("core_skills", .arr core_skills),
         ("soft_skills", .arr soft_skills),
         ("certifications", .arr certifications),
         ("languages", .arr languages)]),
     ("work_experience", .arr work_experience),
     ("education", .arr education),
     ("projects", .arr projects),
     ("achievements", .arr achievements),
     ("analysis", .obj
        [("resume_rating", .num rating),
         ("strengths", .str strengths),
         ("improvement_areas", .str improvement_areas),
         ("upskill_suggestions", .str upskill_suggestions),
         ("missing_sections", .arr missing_sections)]),
     ("raw_text", raw_text)]

/-! ## Spec-side definitions (for refinement comparisons) -/

/-- From the spec wording (§4.1): the per-page texts joined by a newline. -/
def newlineJoin : List String → String
  | [] => ""
  | [p] => p
  | p :: q :: qs => p ++ "\n" ++ newlineJoin (q :: qs)

/-- From the spec wording (§4.3, amended): scan the whitespace tokens of the
    lower-cased text for the first one containing both `@` and `.`, strip the
    punctuation set from both ends, and fall back to the fixed placeholder. -/
def specEmailDetect (text : String) : String :=
  match (pySplitWs (pyLower text).data).find?
      (fun w => w.contains '@' && w.contains '.') with
  | some w => ⟨stripBoth emailStripSet w⟩
  | none => "sample@email.com"

/-- Trailing-only stripping, the literal reading of the C4 claim wording. -/
def stripTrailingOnly (p : Char → Bool) (l : List Char) : List Char :=
  (l.reverse.dropWhile p).reverse

/-- The C4 claim wording taken literally: only trailing punctuation removed
    from the matched token. -/
def specEmailDetectTrailing (text : String) : String :=
  match (pySplitWs (pyLower text).data).find?
      (fun w => w.contains '@' && w.contains '.') with
  | some w => ⟨stripTrailingOnly emailStripSet w⟩
  | none => "sample@email.com"

/-- From the spec wording (§4.3): matched keywords in fixed-list order,
    title-cased, with the fixed default when nothing matches. -/
def specSkillDetect (text : String) : List String :=
  let matched := (skill_keywords.filter
      (fun k => containsSub (pyLower text).data k.data)).map pyCapitalize
  if matched.isEmpty then ["Python", "JavaScript", "SQL"] else matched

/-! ## Observation predicates on StructuredProfile-shaped values -/

def isArrAt (j : Json) (path : List String) : Bool :=
  match jsonAt j path with
  | some (.arr _) => true
  | _ => false

/-- Spec §3: every list-valued StructuredProfile field present as a list. -/
def listFieldsPresent (j : Json) : Bool :=
  isArrAt j ["skills", "core_skills"] && isArrAt j ["skills", "soft_skills"] &&
  isArrAt j ["skills", "certifications"] && isArrAt j ["skills", "languages"] &&
  isArrAt j ["work_experience"] && isArrAt j ["education"] &&
  isArrAt j ["projects"] && isArrAt j ["achievements"] &&
  isArrAt j ["analysis", "missing_sections"]

/-- Spec §3: the rating is numeric and lies in [0, 10]. -/
def ratingInRange (j : Json) : Bool :=
  match jsonAt j ["analysis", "resume_rating"] with
  | some (.num q) => decide (0 ≤ q ∧ q ≤ 10)
  | _ => false

/-- `c` is an ASCII upper-case letter. -/
def isAsciiUpper (c : Char) : Bool := asciiCasePairs.any (fun p => p.1 == c)

/-- No character of `s` is an ASCII upper-case letter. -/
def noUpperStr (s : String) : Bool := s.data.all (fun c => !(isAsciiUpper c))

/-! ## Helper lemmas -/

theorem pyOr_arr (xs : List Json) : pyOr (.arr xs) (.arr []) = .arr xs := by
  cases xs <;> simp [pyOr, pyFalsy]

theorem pyOr_str (s : String) : pyOr (.str s) (.str "") = .str s := by
  by_cases h : s = "" <;> simp [pyOr, pyFalsy, String.isEmpty_iff, h]

theorem pyOr_num (q : Rat) : pyOr (.num q) (.num 0) = .num q := by
  by_cases h : q = 0 <;> simp [pyOr, pyFalsy, h]

theorem pdfConcat_shift (pages : List String) (a : String) :
    pages.foldl (fun text page => text ++ page ++ "\n") a =
      a ++ pages.foldl (fun text page => text ++ page ++ "\n") "" := by
  induction pages generalizing a with
  | nil => simp [List.foldl_nil, String.append_empty]
  | cons p ps ih =>
    simp only [List.foldl_cons]
    rw [ih (a ++ p ++ "\n"), ih ("" ++ p ++ "\n")]
    simp [String.append_assoc, String.empty_append]

theorem pdfConcat_cons (p : String) (ps : List String) :
    pdfConcat (p :: ps) = (p ++ "\n") ++ pdfConcat ps := by
  unfold pdfConcat
  simp only [List.foldl_cons]
  rw [pdfConcat_shift ps ("" ++ p ++ "\n")]
  simp [String.empty_append]

theorem pdfConcat_eq_newlineJoin (pages : List String) (h : pages ≠ []) :
    pdfConcat pages = newlineJoin pages ++ "\n" := by
  induction pages with
  | nil => exact absurd rfl h
  | cons p ps ih =>
    cases ps with
    | nil =>
      show pdfConcat [p] = newlineJoin [p] ++ "\n"
      rw [pdfConcat_cons]
      simp [pdfConcat, newlineJoin, List.foldl_nil, String.append_empty]
    | cons q qs =>
      rw [pdfConcat_cons, ih (by simp)]
      show p ++ "\n" ++ (newlineJoin (q :: qs) ++ "\n") =
        (p ++ "\n" ++ newlineJoin (q :: qs)) ++ "\n"
      simp [String.append_assoc]

theorem stripBoth_append_space (p : Char → Bool) (l : List Char) (c : Char)
    (hc : p c = true) : stripBoth p (l ++ [c]) = stripBoth p l := by
  unfold stripBoth
  rw [List.dropWhile_append]
  by_cases h : (l.dropWhile p).isEmpty
  · simp only [h, if_true]
    rw [List.isEmpty_iff] at h
    simp [h, List.dropWhile_cons, hc]
  · simp only [h, if_false]
    simp [List.reverse_append, List.dropWhile_cons, hc]

theorem pyStrip_append_newline (s : String) : pyStrip (s ++ "\n") = pyStrip s := by
  unfold pyStrip
  have hd : (s ++ "\n").data = s.data ++ ['\n'] := by
    rw [String.data_append]
  rw [hd, stripBoth_append_space pySpace s.data '\n' (by rfl)]

theorem stripBoth_eq_nil_iff (p : Char → Bool) (l : List Char) :
    stripBoth p l = [] ↔ ∀ c ∈ l, p c = true := by
  unfold stripBoth
  constructor
  · intro h c hc
    rw [List.reverse_eq_nil_iff, List.dropWhile_eq_nil_iff] at h
    by_cases hcx : c ∈ l.dropWhile p
    · exact h c (List.mem_reverse.mpr hcx)
    · have hsplit := List.takeWhile_append_dropWhile (p := p) (l := l)
      have hmem : c ∈ l.takeWhile p ++ l.dropWhile p := by rw [hsplit]; exact hc
      rcases List.mem_append.mp hmem with h1 | h2
      · exact List.mem_takeWhile_imp h1
      · exact absurd h2 hcx
  · intro h
    have h1 : l.dropWhile p = [] := List.dropWhile_eq_nil_iff.mpr h
    simp [h1]

theorem mem_stripBoth (p : Char → Bool) (l : List Char) (c : Char)
    (h : c ∈ stripBoth p l) : c ∈ l := by
  unfold stripBoth at h
  rw [List.mem_reverse] at h
  have h2 := (List.dropWhile_sublist (p := p)
    (l := (l.dropWhile p).reverse)).subset h
  rw [List.mem_reverse] at h2
  exact (List.dropWhile_sublist (p := p) (l := l)).subset h2

theorem mem_newlineJoin (pages : List String) (s : String) (hs : s ∈ pages)
    (c : Char) (hc : c ∈ s.data) : c ∈ (newlineJoin pages).data := by
  induction pages with
  | nil => cases hs
  | cons p ps ih =>
    cases ps with
    | nil =>
      rcases List.mem_singleton.mp hs with rfl
      simpa [newlineJoin] using hc
    | cons q qs =>
      rcases List.mem_cons.mp hs with rfl | hs'
      · show c ∈ (s ++ "\n" ++ newlineJoin (q :: qs)).data
        simp only [String.data_append, List.mem_append]
        exact Or.inl (Or.inl hc)
      · show c ∈ (p ++ "\n" ++ newlineJoin (q :: qs)).data
        simp only [String.data_append, List.mem_append]
        exact Or.inr (ih hs')

/-! ## Fenced-response lemmas (Response Normalizer) -/

/-- A response wrapped in a ```` ```json ```` fenced block. -/
def jsonFence (t : String) : String := "```json" ++ t ++ "```"

theorem jsonFence_data (t : String) :
    (jsonFence t).data =
      '`' :: '`' :: '`' :: 'j' :: 's' :: 'o' :: 'n' ::
        (t.data ++ ['`', '`', '`']) := by
  unfold jsonFence
  simp [String.data_append]

theorem parseVal_backtick (fuel : Nat) (l : List Char) :
    parseVal fuel ('`' :: l) = .error ("Expecting value", '`' :: l) := by
  cases fuel with
  | zero => rfl
  | succ n => rfl

theorem json_loads_fence_error (t : String) :
    ∃ e, json_loads (jsonFence t) = .error e := by
  refine ⟨mkJsonErr ('`' :: '`' :: '`' :: 'j' :: 's' :: 'o' :: 'n' ::
      (t.data ++ ['`', '`', '`'])) "Expecting value"
      ('`' :: '`' :: '`' :: 'j' :: 's' :: 'o' :: 'n' ::
      (t.data ++ ['`', '`', '`'])), ?_⟩
  unfold json_loads
  rw [jsonFence_data]
  rw [show (('`' :: '`' :: '`' :: 'j' :: 's' :: 'o' :: 'n' ::
      (t.data ++ ['`', '`', '`'])).dropWhile jsonWs) =
      '`' :: '`' :: '`' :: 'j' :: 's' :: 'o' :: 'n' ::
      (t.data ++ ['`', '`', '`']) from by
    rw [List.dropWhile_cons]
    simp [jsonWs]]
  rw [parseVal_backtick]

theorem stripBoth_id_of_ends (p : Char → Bool) (a b : Char) (l : List Char)
    (ha : p a = false) (hb : p b = false) :
    stripBoth p (a :: (l ++ [b])) = a :: (l ++ [b]) := by
  unfold stripBoth
  rw [List.dropWhile_cons, ha]
  simp only [Bool.false_eq_true, if_false, List.reverse_cons, List.reverse_append,
    List.reverse_cons, List.reverse_nil, List.nil_append, List.singleton_append,
    List.cons_append, List.dropWhile_cons, hb]
  simp [List.reverse_append]

theorem pyStrip_jsonFence (t : String) : pyStrip (jsonFence t) = jsonFence t := by
  unfold pyStrip
  rw [String.ext_iff]
  rw [jsonFence_data]
  have hshape : ('`' :: '`' :: '`' :: 'j' :: 's' :: 'o' :: 'n' ::
      (t.data ++ ['`', '`', '`'])) =
      '`' :: (('`' :: '`' :: 'j' :: 's' :: 'o' :: 'n' ::
        (t.data ++ ['`', '`'])) ++ ['`']) := by
    simp
  rw [hshape, stripBoth_id_of_ends pySpace '`' '`' _ (by rfl) (by rfl)]

theorem fenceRepair_jsonFence (t : String) : fenceRepair (jsonFence t) = t := by
  unfold fenceRepair
  rw [pyStrip_jsonFence]
  rw [show listStartsWith "```json".data (jsonFence t).data = true from by
    rw [jsonFence_data]; rfl]
  simp only [if_true]
  rw [String.ext_iff]
  show pySliceTrim 7 3 (jsonFence t).data = t.data
  rw [jsonFence_data]
  unfold pySliceTrim
  have hlen : ('`' :: '`' :: '`' :: 'j' :: 's' :: 'o' :: 'n' ::
      (t.data ++ ['`', '`', '`'])).length = 7 + (t.data.length + 3) := by
    simp only [List.length_cons, List.length_append, List.length_nil]
    omega
  rw [hlen]
  have harith : 7 + (t.data.length + 3) - 3 - 7 = t.data.length := by omega
  rw [harith]
  show (t.data ++ ['`', '`', '`']).take t.data.length = t.data
  exact List.take_left t.data _

/-- The flat storage record, leaf for leaf, as produced for a complete
    StructuredProfile: one column per profile leaf, plus the filename and the
    archival copy of the whole record. -/
def mkFlatRecord (name email phone address linkedin github website : Json)
    (core_skills soft_skills certifications languages : List Json)
    (work_experience education projects achievements : List Json)
    (rating : Rat) (strengths improvement_areas upskill_suggestions : String)
    (missing_sections : List Json) (raw_text : Json) (filename : String) : Json :=
  .obj
    [("filename", .str filename),
     ("name", name),
     ("email", email),
     ("phone", phone),
     ("address", address),
     ("linkedin", linkedin),
     ("github", github),
     ("website", website),
     ("core_skills", .arr core_skills),
     ("soft_skills", .arr soft_skills),
     ("certifications", .arr certifications),
     ("languages", .arr languages),
     ("work_experience", .arr work_experience),
     ("education", .arr education),
     ("projects", .arr projects),
     ("achievements", .arr achievements),
     ("resume_rating", .num rating),
     ("improvement_areas", .str improvement_areas),
     ("upskill_suggestions", .str upskill_suggestions),
     ("strengths", .str strengths),
     ("missing_sections", .arr missing_sections),
     ("raw_text", raw_text),
     ("structured_data",
       mkProfile name email phone address linkedin github website
         core_skills soft_skills certifications languages
         work_experience education projects achievements
         rating strengths improvement_areas upskill_suggestions
         missing_sections raw_text)]

/-! ## Claim theorems -/

/-- C3: a response wrapped in a ```` ```json ... ``` ```` fenced code block
    decodes, through the Response Normalizer recovery of lines 213-223,
    to exactly the same object as the unwrapped JSON text. -/
theorem c3_fenced_decode_eq (t : String) (v : Json) (h : json_loads t = .ok v) :
    decodeWithRecovery (jsonFence t) = .ok v ∧ decodeWithRecovery t = .ok v := by
  constructor
  · unfold decodeWithRecovery
    obtain ⟨e, he⟩ := json_loads_fence_error t
    rw [he, fenceRepair_jsonFence t, h]
  · unfold decodeWithRecovery
    rw [h]

/-- Witness for C3 at a concrete JSON object text. -/
theorem c3_fenced_decode_eq_witness :
    decodeWithRecovery (jsonFence "\x7b\"name\": \"Jane\", \"rating\": 7.5\x7d") =
      .ok (Json.obj [("name", .str "Jane"), ("rating", .num (mkRat 15 2))]) ∧
    decodeWithRecovery "\x7b\"name\": \"Jane\", \"rating\": 7.5\x7d" =
      .ok (Json.obj [("name", .str "Jane"), ("rating", .num (mkRat 15 2))]) :=
  c3_fenced_decode_eq "\x7b\"name\": \"Jane\", \"rating\": 7.5\x7d"
    (Json.obj [("name", .str "Jane"), ("rating", .num (mkRat 15 2))]) (by rfl)

/-- C9: the heuristic fallback is deterministic — two runs on the same input
    text return identical output. -/
theorem c9_mock_deterministic (s t : String) (h : s = t) :
    get_mock_analysis s = get_mock_analysis t := by rw [h]

/-- Witness for C9 at a concrete input text. -/
theorem c9_mock_deterministic_witness :
    get_mock_analysis "Jane jane@ex.com Python" =
      get_mock_analysis "Jane jane@ex.com Python" :=
  c9_mock_deterministic "Jane jane@ex.com Python" "Jane jane@ex.com Python" rfl

/-- C1 (amended): every heuristic-fallback result has all §3 list-valued
    fields present as lists and a numeric rating inside [0, 10]. -/
theorem c1_fallback_shape (resume_text : String) :
    listFieldsPresent (get_mock_analysis resume_text) = true ∧
      ratingInRange (get_mock_analysis resume_text) = true := by
  exact ⟨rfl, rfl⟩

/-- C1 counterexample: on the live strategy a successfully decoded `{}`
    response is returned with only `raw_text` attached — no list-valued field
    is present and no rating exists, so no default-filling or rating bound
    holds for live results. -/
theorem c1_counterexample :
    analyze_resume false (fun _ => "\x7b\x7d") (PdfDoc.valid ["resume body"]) =
      .ok (Json.obj [("raw_text", .str "resume body")]) ∧
    listFieldsPresent (Json.obj [("raw_text", .str "resume body")]) = false ∧
    ratingInRange (Json.obj [("raw_text", .str "resume body")]) = false := by
  exact ⟨rfl, rfl, rfl⟩

/-- C7: for a valid, text-bearing PDF (some page carries a character that
    whitespace-stripping keeps), the Text Extractor returns exactly the
    newline-join of the page texts with outer whitespace trimmed, and the
    result is non-empty. -/
theorem c7_extractor_join (pages : List String)
    (h : ∃ p ∈ pages, (pyStrip p).isEmpty = false) :
    extract_text_from_pdf (PdfDoc.valid pages) =
        .ok (pyStrip (newlineJoin pages)) ∧
      (pyStrip (newlineJoin pages)).isEmpty = false := by
  obtain ⟨p, hp, hne⟩ := h
  have hpages : pages ≠ [] := by rintro rfl; cases hp
  constructor
  · show Except.ok (pyStrip (pdfConcat pages)) = _
    rw [pdfConcat_eq_newlineJoin pages hpages, pyStrip_append_newline]
  · have hnotall : ¬ (∀ c ∈ p.data, pySpace c = true) := by
      intro hall
      have hnil : stripBoth pySpace p.data = [] :=
        (stripBoth_eq_nil_iff pySpace p.data).mpr hall
      have : pyStrip p = "" := by
        unfold pyStrip
        rw [hnil]
      rw [this] at hne
      exact absurd hne (by decide)
    push_neg at hnotall
    obtain ⟨c, hcp, hcs⟩ := hnotall
    have hcj : c ∈ (newlineJoin pages).data := mem_newlineJoin pages p hp c hcp
    cases hempty : (pyStrip (newlineJoin pages)).isEmpty with
    | false => rfl
    | true =>
      exfalso
      have hstr : pyStrip (newlineJoin pages) = "" :=
        (String.isEmpty_iff _).mp hempty
      have hnil : stripBoth pySpace (newlineJoin pages).data = [] := by
        have := congrArg String.data hstr
        simpa [pyStrip] using this
      exact hcs ((stripBoth_eq_nil_iff pySpace _).mp hnil c hcj)

/-- Witness for C7 at a concrete two-page document. -/
theorem c7_extractor_join_witness :
    extract_text_from_pdf (PdfDoc.valid ["Jane Doe", "Skills: Python"]) =
        .ok (pyStrip (newlineJoin ["Jane Doe", "Skills: Python"])) ∧
      (pyStrip (newlineJoin ["Jane Doe", "Skills: Python"])).isEmpty = false :=
  c7_extractor_join ["Jane Doe", "Skills: Python"]
    ⟨"Jane Doe", by simp, by rfl⟩

/-- C8: the Record Formatter is total on complete StructuredProfiles — it
    produces exactly the flat storage record — and reading the flat record
    back reconstructs the profile field for field. -/
theorem c8_format_roundtrip
    (name email phone address linkedin github website raw_text : Json)
    (core_skills soft_skills certifications languages : List Json)
    (work_experience education projects achievements : List Json)
    (rating : Rat) (strengths improvement_areas upskill_suggestions : String)
    (missing_sections : List Json) (filename : String) :
    format_for_database
        (mkProfile name email phone address linkedin github website
          core_skills soft_skills certifications languages
          work_experience education projects achievements
          rating strengths improvement_areas upskill_suggestions
          missing_sections raw_text) filename =
      .ok (mkFlatRecord name email phone address linkedin github website
          core_skills soft_skills certifications languages
          work_experience education projects achievements
          rating strengths improvement_areas upskill_suggestions
          missing_sections raw_text filename) ∧
    readBackProfile
        (mkFlatRecord name email phone address linkedin github website
          core_skills soft_skills certifications languages
          work_experience education projects achievements
          rating strengths improvement_areas upskill_suggestions
          missing_sections raw_text filename) =
      mkProfile name email phone address linkedin github website
        core_skills soft_skills certifications languages
        work_experience education projects achievements
        rating strengths improvement_areas upskill_suggestions
        missing_sections raw_text := by
  constructor
  · rfl
  · simp [readBackProfile, colGet, jsonLookup, mkFlatRecord, mkProfile,
      pyOr_arr, pyOr_str, pyOr_num]

theorem mem_pySplitAux (w : List Char) (c : Char) (hc : c ∈ w) :
    ∀ (l cur : List Char), w ∈ pySplitAux l cur → c ∈ l ∨ c ∈ cur := by
  intro l
  induction l with
  | nil =>
    intro cur hw
    unfold pySplitAux at hw
    by_cases hcur : cur.isEmpty = true
    · simp [hcur] at hw
    · simp [hcur] at hw
      subst hw
      exact Or.inr (List.mem_reverse.mp hc)
  | cons a l ih =>
    intro cur hw
    unfold pySplitAux at hw
    by_cases ha : pySpace a = true
    · rw [if_pos ha] at hw
      by_cases hcur : cur.isEmpty = true
      · rw [if_pos hcur] at hw
        rcases ih [] hw with h | h
        · exact Or.inl (List.mem_cons_of_mem a h)
        · cases h
      · rw [if_neg hcur] at hw
        rcases List.mem_cons.mp hw with rfl | hw'
        · exact Or.inr (List.mem_reverse.mp hc)
        · rcases ih [] hw' with h | h
          · exact Or.inl (List.mem_cons_of_mem a h)
          · cases h
    · rw [if_neg ha] at hw
      rcases ih (a :: cur) hw with h | h
      · exact Or.inl (List.mem_cons_of_mem a h)
      · rcases List.mem_cons.mp h with rfl | h'
        · exact Or.inl (List.mem_cons_self _ _)
        · exact Or.inr h'

theorem mem_pySplitWs (l w : List Char) (hw : w ∈ pySplitWs l) (c : Char)
    (hc : c ∈ w) : c ∈ l := by
  rcases mem_pySplitAux w c hc l [] hw with h | h
  · exact h
  · cases h

theorem isAsciiUpper_pyToLower (c : Char) : isAsciiUpper (pyToLower c) = false := by
  unfold pyToLower
  cases hf : asciiCasePairs.find? (fun p => p.1 == c) with
  | none =>
    show isAsciiUpper c = false
    cases hx : isAsciiUpper c with
    | false => rfl
    | true =>
      exfalso
      obtain ⟨p, hp, hpc⟩ := List.any_eq_true.mp hx
      exact (List.find?_eq_none.mp hf p hp) hpc
  | some p =>
    have hmem := List.mem_of_find?_eq_some hf
    have hall : ∀ q ∈ asciiCasePairs, isAsciiUpper q.2 = false := by decide
    exact hall p hmem

theorem stripBoth_ne_nil_of_mem (p : Char → Bool) (l : List Char) (c : Char)
    (hc : c ∈ l) (hp : p c = false) : stripBoth p l ≠ [] := by
  intro hnil
  have := (stripBoth_eq_nil_iff p l).mp hnil c hc
  rw [hp] at this
  cases this

/-- The embedded fallback email computation agrees with the spec-worded
    detection (amended to strip punctuation from both ends): the Python-level
    truthiness check on the stripped token never fires, because the matched
    token contains `@`, which is not in the strip set. -/
theorem mockEmailVal_eq_spec (text : String) :
    mockEmailVal text = specEmailDetect text := by
  unfold mockEmailVal specEmailDetect mockEmailTok mockWords
  cases hfind : (pySplitWs (pyLower text).data).find?
      (fun w => w.contains '@' && w.contains '.') with
  | none => rfl
  | some w =>
    have hpred := List.find?_some hfind
    obtain ⟨hat', _⟩ := (Bool.and_eq_true _ _).mp hpred
    have hat : '@' ∈ w := List.elem_iff.mp hat'
    have hne : stripBoth emailStripSet w ≠ [] :=
      stripBoth_ne_nil_of_mem emailStripSet w '@' hat (by rfl)
    have hempty : (stripBoth emailStripSet w).isEmpty = false := by
      cases hx : (stripBoth emailStripSet w).isEmpty with
      | false => rfl
      | true => exact absurd (List.isEmpty_iff.mp hx) hne
    simp [hempty]

theorem noUpperStr_mockEmailVal (text : String) :
    noUpperStr (mockEmailVal text) = true := by
  unfold mockEmailVal
  cases hfind : mockEmailTok text with
  | none => rfl
  | some w =>
    by_cases hemp : (stripBoth emailStripSet w).isEmpty = true
    · simp only [hemp, if_true]
      rfl
    · simp only [hemp, Bool.false_eq_true, if_false]
      have hw : w ∈ pySplitWs (pyLower text).data := by
        have := List.mem_of_find?_eq_some hfind
        exact this
      unfold noUpperStr
      rw [List.all_eq_true]
      intro c hc
      have hcw : c ∈ w := mem_stripBoth emailStripSet w c hc
      have hcl : c ∈ (pyLower text).data := mem_pySplitWs _ w hw c hcw
      rw [show (pyLower text).data = text.data.map pyToLower from rfl] at hcl
      obtain ⟨c0, _, rfl⟩ := List.mem_map.mp hcl
      simp [isAsciiUpper_pyToLower]

/-- C10: the fallback email is always entirely lower-case (tokens come from
    the lower-cased text), and the punctuation set is stripped from both the
    leading and the trailing end of the matched token, as the concrete
    capitalised, bracketed input shows. -/
theorem c10_email_lowercase_bothends :
    (∀ text : String,
      jsonAt (get_mock_analysis text) ["personal_info", "email"] =
        some (.str (mockEmailVal text)) ∧
      noUpperStr (mockEmailVal text) = true) ∧
    mockEmailVal "Reach ([JOHN@EXAMPLE.COM]). now" = "john@example.com" := by
  refine ⟨fun text => ⟨rfl, noUpperStr_mockEmailVal text⟩, rfl⟩

/-- C4 counterexample: on a token with leading punctuation the code strips
    both ends (`str.strip`), so the claimed trailing-only stripping predicts a
    different email than the code produces. -/
theorem c4_counterexample :
    mockEmailVal "Contact (JANE@Ex.com), soon" = "jane@ex.com" ∧
    specEmailDetectTrailing "Contact (JANE@Ex.com), soon" = "(jane@ex.com" ∧
    mockEmailVal "Contact (JANE@Ex.com), soon" ≠
      specEmailDetectTrailing "Contact (JANE@Ex.com), soon" := by
  refine ⟨rfl, rfl, ?_⟩
  decide

/-- C4 (amended): the fallback email detection scans the whitespace tokens of
    the lower-cased text for the first one containing both `@` and `.`,
    strips the punctuation set `.,()[]` from *both* ends, and falls back to
    the fixed placeholder when no token matches. -/
theorem c4_email_detection (text : String) :
    jsonAt (get_mock_analysis text) ["personal_info", "email"] =
      some (.str (specEmailDetect text)) := by
  rw [← mockEmailVal_eq_spec]
  rfl

theorem mockTechSkills_foldl_eq (text : String) (ks : List String)
    (acc : List String) :
    ks.foldl (fun acc skill =>
        if containsSub (pyLower text).data skill.data then
          acc ++ [pyCapitalize skill]
        else acc) acc =
      acc ++ (ks.filter (fun k => containsSub (pyLower text).data k.data)).map
        pyCapitalize := by
  induction ks generalizing acc with
  | nil => simp
  | cons k ks ih =>
    by_cases h : containsSub (pyLower text).data k.data = true
    · simp only [List.foldl_cons, List.filter_cons, h, if_true, List.map_cons]
      rw [ih]
      simp
    · have h' : containsSub (pyLower text).data k.data = false := by
        cases hx : containsSub (pyLower text).data k.data with
        | false => rfl
        | true => exact absurd hx h
      simp only [List.foldl_cons, List.filter_cons, h', Bool.false_eq_true,
        if_false]
      exact ih acc

theorem mockTechSkills_eq_filter (text : String) :
    mockTechSkills text =
      (skill_keywords.filter
        (fun k => containsSub (pyLower text).data k.data)).map pyCapitalize := by
  unfold mockTechSkills
  rw [mockTechSkills_foldl_eq]
  simp

/-- C5: the fallback skill detection equals the spec-worded detection — a
    case-insensitive substring test against the fixed keyword list, output in
    fixed-list order, capitalized, with the fixed default when nothing
    matches — and any text containing "python" (case-insensitively) yields
    "Python" among the core skills. -/
theorem c5_skill_detection (text : String) :
    jsonAt (get_mock_analysis text) ["skills", "core_skills"] =
      some (strArr (specSkillDetect text)) ∧
    (containsSub (pyLower text).data "python".data = true →
      "Python" ∈ specSkillDetect text) := by
  constructor
  · show some (strArr (pyListOr (mockTechSkills text) ["Python", "JavaScript", "SQL"])) = _
    rw [mockTechSkills_eq_filter]
    unfold specSkillDetect pyListOr
    rfl
  · intro h
    have hmemk : "python" ∈ skill_keywords := by decide
    have hmemf : "python" ∈ skill_keywords.filter
        (fun k => containsSub (pyLower text).data k.data) :=
      List.mem_filter.mpr ⟨hmemk, h⟩
    have hmem : "Python" ∈ (skill_keywords.filter
        (fun k => containsSub (pyLower text).data k.data)).map pyCapitalize := by
      have := List.mem_map_of_mem pyCapitalize hmemf
      simpa using this
    unfold specSkillDetect
    have hne : ((skill_keywords.filter
        (fun k => containsSub (pyLower text).data k.data)).map
          pyCapitalize).isEmpty = false := by
      cases hx : ((skill_keywords.filter
          (fun k => containsSub (pyLower text).data k.data)).map
            pyCapitalize).isEmpty with
      | false => rfl
      | true =>
        rw [List.isEmpty_iff] at hx
        rw [hx] at hmem
        cases hmem
    simp only [hne, Bool.false_eq_true, if_false]
    exact hmem

/-- Witness for C5 at a concrete mixed-case input. -/
theorem c5_skill_detection_witness :
    "Python" ∈ specSkillDetect "We use PyThOn daily" :=
  (c5_skill_detection "We use PyThOn daily").2 (by rfl)

/-- C2 (amended): when the live response fails strict decoding and the
    fence-repair retry also fails, `analyze_resume` raises — it never returns
    a record and never substitutes fallback data — but the exception is the
    generic wrapper `Exception("Error analyzing resume: " + str(e))` around
    the JSON decode error, not a dedicated error carrying the original
    response. -/
theorem c2_decode_failure_error (r : String) (e1 e2 : JsonErr)
    (h1 : json_loads r = .error e1)
    (h2 : json_loads (fenceRepair r) = .error e2) :
    analyze_resume false (fun _ => r) (PdfDoc.valid ["resume body"]) =
      .error (.exc ("Error analyzing resume: " ++ jsonErrStr e2)) := by
  have hd : decodeWithRecovery r = .error e2 := by
    unfold decodeWithRecovery
    rw [h1, h2]
  simp only [analyze_resume, analyzeResumeBody, extract_text_from_pdf]
  rw [hd]
  rfl

/-- Witness for C2 at a concrete non-JSON response. -/
theorem c2_decode_failure_error_witness :
    analyze_resume false (fun _ => "oops") (PdfDoc.valid ["resume body"]) =
      .error (.exc ("Error analyzing resume: " ++
        jsonErrStr ⟨"Expecting value", 1, 1, 0⟩)) :=
  c2_decode_failure_error "oops" ⟨"Expecting value", 1, 1, 0⟩
    ⟨"Expecting value", 1, 1, 0⟩ (by rfl) (by rfl)

/-- C2 counterexample: the raised exception does not carry the original
    response (the message is only the decode-error description), and it is
    the same generic Python exception class as a malformed-PDF failure, so no
    dedicated `MalformedAnalysisError` exists. -/
theorem c2_counterexample :
    analyze_resume false (fun _ => "The reasoning service is busy")
        (PdfDoc.valid ["resume body"]) =
      .error (.exc "Error analyzing resume: Expecting value: line 1 column 1 (char 0)") ∧
    containsSub
      "Error analyzing resume: Expecting value: line 1 column 1 (char 0)".data
      "The reasoning service is busy".data = false ∧
    analyze_resume false (fun _ => "The reasoning service is busy")
        (PdfDoc.malformed "bad byte stream") =
      .error (.exc "Error analyzing resume: Error extracting text from PDF: bad byte stream") ∧
    (PyExc.exc "Error analyzing resume: Expecting value: line 1 column 1 (char 0)").classIdx =
      (PyExc.exc "Error analyzing resume: Error extracting text from PDF: bad byte stream").classIdx := by
  exact ⟨rfl, rfl, rfl, rfl⟩

/-- C6 (amended): when the stripped extracted text is empty, the pipeline
    raises — it never returns a profile — with the fixed message
    `"Error analyzing resume: No text could be extracted from the PDF"`;
    the exception is the generic wrapper class, distinguished from the
    malformed-PDF failure only by its message text. -/
theorem c6_empty_document_error (use_mock : Bool) (llm : String → String)
    (pages : List String) (h : pyStrip (pdfConcat pages) = "") :
    analyze_resume use_mock llm (PdfDoc.valid pages) =
      .error (.exc "Error analyzing resume: No text could be extracted from the PDF") := by
  simp only [analyze_resume, analyzeResumeBody, extract_text_from_pdf]
  rw [h]
  rfl

/-- Witness for C6 at a concrete whitespace-only document. -/
theorem c6_empty_document_error_witness :
    analyze_resume true (fun _ => "") (PdfDoc.valid ["  ", " \n "]) =
      .error (.exc "Error analyzing resume: No text could be extracted from the PDF") :=
  c6_empty_document_error true (fun _ => "") ["  ", " \n "] (by rfl)

/-- C6 counterexample: the empty-document condition and the malformed-PDF
    condition surface as the *same* generic Python exception class (only the
    message differs), so no distinct `EmptyDocumentError` is raised. -/
theorem c6_counterexample :
    analyze_resume true (fun _ => "") (PdfDoc.valid ["   "]) =
      .error (.exc "Error analyzing resume: No text could be extracted from the PDF") ∧
    analyze_resume true (fun _ => "") (PdfDoc.malformed "EOF marker not found") =
      .error (.exc "Error analyzing resume: Error extracting text from PDF: EOF marker not found") ∧
    (PyExc.exc "Error analyzing resume: No text could be extracted from the PDF").classIdx =
      (PyExc.exc "Error analyzing resume: Error extracting text from PDF: EOF marker not found").classIdx := by
  exact ⟨rfl, rfl, rfl⟩
